import Mathlib

/-!
Verification of the MockupAI Studio client: a shallow embedding of its
data model (types.ts), its generation-service layer (geminiService.ts) and
its session-orchestration handlers (App.tsx), together with theorems
settling the specification's claims about them.

Remote calls are modelled by passing an explicit `remote` function from the
request value built by the code to an `Except`-valued response, so that the
request payload the code constructs and the way it handles every possible
response are both visible to the theorems.
-/

/-- Mirror of `enum AppMode` in types.ts. -/
inductive AppMode where
  | MOCKUP
  | IMAGE_GEN
deriving DecidableEq

/-- Mirror of the union type `'mockup' | 'generation'` of the `type` field of
`GeneratedImage` in types.ts. -/
inductive GeneratedImageType where
  | mockup
  | generation
deriving DecidableEq

/-- Mirror of `interface GeneratedImage` in types.ts. Timestamps are
modelled as naturals. -/
structure GeneratedImage where
  id : String
  url : String
  prompt : String
  createdAt : Nat
  type : GeneratedImageType
deriving DecidableEq

/-- Mirror of `interface MockupPreset` in types.ts. -/
structure MockupPreset where
  id : String
  name : String
  icon : String
  promptTemplate : String
deriving DecidableEq

/-- Mirror of `enum AspectRatio` in types.ts (values 1:1, 3:4, 4:3, 16:9, 9:16). -/
inductive AspectRatio where
  | SQUARE
  | PORTRAIT
  | LANDSCAPE
  | WIDE
  | TALL
deriving DecidableEq

/-- The static preset catalog `MOCKUP_PRESETS` of App.tsx, verbatim. -/
def MOCKUP_PRESETS : List MockupPreset := [
  { id := "mug", name := "Ceramic Mug", icon := "☕",
    promptTemplate := "Place this logo realistically on a clean white ceramic coffee mug sitting on a wooden table. Professional product photography." },
  { id := "tshirt", name := "T-Shirt", icon := "👕",
    promptTemplate := "A high quality photo of a folded black cotton t-shirt with this design printed on the center chest. Studio lighting." },
  { id := "hoodie", name := "Hoodie", icon := "🧥",
    promptTemplate := "A model wearing a grey streetwear hoodie featuring this logo prominently on the front. Urban setting." },
  { id := "tote", name := "Tote Bag", icon := "👜",
    promptTemplate := "A canvas tote bag hanging on a coat rack with this logo printed on the side. Natural lighting." },
  { id := "sticker", name := "Laptop Sticker", icon := "💻",
    promptTemplate := "A die-cut vinyl sticker of this image stuck on a silver laptop cover. Close up macro shot." },
  { id := "sign", name := "Neon Sign", icon := "✨",
    promptTemplate := "A glowing neon sign on a brick wall in the shape and style of this image. Night time atmosphere." }
]

/-! ## Generation client (geminiService.ts) -/

/-- Response modality constant from the genai SDK; the code requests
`[Modality.IMAGE]`. -/
inductive Modality where
  | IMAGE
  | TEXT
deriving DecidableEq

/-- An inline binary blob of a content part: `{ data: base64, mimeType }`. -/
structure InlineData where
  data : String
  mimeType : String
deriving DecidableEq

/-- One content part of a generate-content request or response; it may carry
inline data, text, both or neither (both fields are optional in the SDK). -/
structure GenPart where
  inlineData : Option InlineData := none
  text : Option String := none
deriving DecidableEq

/-- `content` of a response candidate; `parts` is optional in the SDK. -/
structure GenContent where
  parts : Option (List GenPart)
deriving DecidableEq

/-- One response candidate; `content` is optional in the SDK. -/
structure GenCandidate where
  content : Option GenContent
deriving DecidableEq

/-- Response of `ai.models.generateContent`; `candidates` is optional in the
SDK, and the code guards every step with optional chaining. -/
structure GenResponse where
  candidates : Option (List GenCandidate)
deriving DecidableEq

/-- The request value `generateMockup` passes to `ai.models.generateContent`:
model name, the two content parts (the inline image then the prompt text)
and the requested response modalities. -/
structure GenRequest where
  model : String
  parts : List GenPart
  responseModalities : List Modality

/-- The request literal built at lines 436-454 of geminiService.ts. -/
def generateMockupRequest (base64Image mimeType prompt : String) : GenRequest :=
  { model := "gemini-2.5-flash-image"
  , parts := [ { inlineData := some { data := base64Image, mimeType := mimeType } }
             , { text := some prompt } ]
  , responseModalities := [Modality.IMAGE] }

/-- `generateMockup` of geminiService.ts. The remote call is the explicit
`remote` argument; the code rethrows remote errors unchanged (its catch
block only logs), checks `response.candidates?.[0]?.content?.parts`, and
succeeds exactly when `parts[0]?.inlineData` is present, returning the PNG
data URI built from that first part's bytes. -/
def generateMockup (base64Image mimeType prompt : String)
    (remote : GenRequest → Except String GenResponse) : Except String String :=
  match remote (generateMockupRequest base64Image mimeType prompt) with
  | .error e => .error e
  | .ok response =>
    match (((response.candidates.bind List.head?).bind
        GenCandidate.content).bind GenContent.parts) with
    | some parts =>
      match parts.head? with
      | some p =>
        match p.inlineData with
        | some d => .ok ("data:image/png;base64," ++ d.data)
        | none => .error "No image generated in response"
      | none => .error "No image generated in response"
    | none => .error "No image generated in response"

/-- Claim-side notion used by the specification: the response contains at
least one inline image part, in any candidate and at any position. -/
def respHasImagePart (r : GenResponse) : Bool :=
  match r.candidates with
  | none => false
  | some cs => cs.any fun c =>
      match c.content with
      | none => false
      | some ct =>
        match ct.parts with
        | none => false
        | some ps => ps.any fun p => p.inlineData.isSome

/-- Claim-side notion: the inline data that the code actually keys on,
namely the `inlineData` of the first part of the first candidate. -/
def firstPartInlineData (r : GenResponse) : Option InlineData :=
  ((((r.candidates.bind List.head?).bind GenCandidate.content).bind
      GenContent.parts).bind List.head?).bind GenPart.inlineData

/-- Image record of the Imagen response: the code reads
`generatedImages[0].image.imageBytes`. -/
structure ImagenImage where
  imageBytes : String
deriving DecidableEq

/-- One element of `response.generatedImages`. -/
structure ImagenGeneratedImage where
  image : ImagenImage
deriving DecidableEq

/-- Response of `ai.models.generateImages`; `generatedImages` is optional. -/
structure ImagenResponse where
  generatedImages : Option (List ImagenGeneratedImage)
deriving DecidableEq

/-- Config part of the `generateImages` request literal. -/
structure ImagenConfig where
  numberOfImages : Nat
  outputMimeType : String
  aspectRatio : AspectRatio
deriving DecidableEq

/-- The request value `generateImage` passes to `ai.models.generateImages`. -/
structure ImagenRequest where
  model : String
  prompt : String
  config : ImagenConfig
deriving DecidableEq

/-- The request literal built at lines 478-486 of geminiService.ts. -/
def generateImageRequest (prompt : String) (aspectRatio : AspectRatio) : ImagenRequest :=
  { model := "imagen-4.0-generate-001"
  , prompt := prompt
  , config := { numberOfImages := 1
              , outputMimeType := "image/jpeg"
              , aspectRatio := aspectRatio } }

/-- `generateImage` of geminiService.ts: build the request, call the remote
endpoint (rethrowing its errors), succeed with a JPEG data URI from the
first generated image when the list is non-empty, fail otherwise. -/
def generateImage (prompt : String) (aspectRatio : AspectRatio)
    (remote : ImagenRequest → Except String ImagenResponse) : Except String String :=
  match remote (generateImageRequest prompt aspectRatio) with
  | .error e => .error e
  | .ok response =>
    match response.generatedImages with
    | some (img :: _) => .ok ("data:image/jpeg;base64," ++ img.image.imageBytes)
    | some [] => .error "No image generated"
    | none => .error "No image generated"

/-! ## JS string primitives

The handlers use `prompt.trim()` and `uploadedImage.split(',')`. These are
modelled directly over the string's character list so that they compute by
structural recursion. -/

/-- JS `String.prototype.trim`: strip whitespace from both ends. -/
def jsTrim (s : String) : String :=
  ⟨((s.data.dropWhile Char.isWhitespace).reverse.dropWhile Char.isWhitespace).reverse⟩

/-- Split a character list at every occurrence of the separator character. -/
def splitCharList (sep : Char) : List Char → List (List Char)
  | [] => [[]]
  | c :: cs =>
    match splitCharList sep cs with
    | [] => if c = sep then [[], [c]] else [[c]]
    | r :: rs => if c = sep then [] :: r :: rs else (c :: r) :: rs

/-- JS `String.prototype.split` with a one-character separator. -/
def jsSplit (s : String) (sep : Char) : List String :=
  (splitCharList sep s.data).map fun l => ⟨l⟩

/-! ## Session orchestrator (App.tsx)

The component state held by the `useState` hooks is gathered into one
record; each handler maps the current state (plus the remote endpoint and
the current time used for `Date.now()`) to the next state. -/

/-- The `useState` fields of the `App` component. -/
structure AppState where
  mode : AppMode
  uploadedImage : Option String
  uploadedMimeType : String
  prompt : String
  isGenerating : Bool
  gallery : List GeneratedImage
  selectedPreset : String
  selectedAspectRatio : AspectRatio
deriving DecidableEq

/-- The initial state of the `useState` hooks of `App`. -/
def initialAppState : AppState :=
  { mode := AppMode.MOCKUP
  , uploadedImage := none
  , uploadedMimeType := "image/png"
  , prompt := ""
  , isGenerating := false
  , gallery := []
  , selectedPreset := "mug"
  , selectedAspectRatio := AspectRatio.SQUARE }

/-- Prompt resolution of `handleMockupGenerate` (App.tsx lines 63-67):
trim the free text; when that is empty fall back to the selected preset's
template, or to a fixed sentence when the preset id is unknown. -/
def resolveMockupPrompt (prompt selectedPreset : String) : String :=
  let finalPrompt := jsTrim prompt
  if finalPrompt = "" then
    match MOCKUP_PRESETS.find? fun p => p.id == selectedPreset with
    | some preset => preset.promptTemplate
    | none => "Place this design on a product."
  else finalPrompt

/-- `uploadedImage.split(',')[1]` of App.tsx line 57: the part after the
first comma of the data URI (JS indexing past the end yields `undefined`;
modelled as the empty string, which no claim observes). -/
def stripDataUriPrefix (uploaded : String) : String :=
  ((jsSplit uploaded ',').drop 1).headD ""

/-- `handleMockupGenerate` of App.tsx. Guard: no uploaded image means no
work. Otherwise the busy flag is raised, the stripped image bytes and the
resolved prompt are sent through `generateMockup`; on success a new entry
is prepended to the gallery, on failure only an alert is shown; the
`finally` block lowers the busy flag on both paths, so the resulting state
always carries `isGenerating := false`. -/
def handleMockupGenerate (s : AppState)
    (remote : GenRequest → Except String GenResponse) (now : Nat) : AppState :=
  match s.uploadedImage with
  | none => s
  | some uploaded =>
    let finalPrompt := resolveMockupPrompt s.prompt s.selectedPreset
    match generateMockup (stripDataUriPrefix uploaded) s.uploadedMimeType finalPrompt remote with
    | .ok resultImage =>
      { s with gallery := { id := toString now
                          , url := resultImage
                          , prompt := finalPrompt
                          , createdAt := now
                          , type := GeneratedImageType.mockup } :: s.gallery
             , isGenerating := false }
    | .error _ => { s with isGenerating := false }

/-- `handleImageGenerate` of App.tsx. Guard: a whitespace-only prompt means
no work. Otherwise `generateImage` is called with the untrimmed prompt and
the selected aspect ratio; on success a new `generation` entry storing the
untrimmed prompt is prepended; the busy flag is lowered on both paths. -/
def handleImageGenerate (s : AppState)
    (remote : ImagenRequest → Except String ImagenResponse) (now : Nat) : AppState :=
  if jsTrim s.prompt = "" then s
  else
    match generateImage s.prompt s.selectedAspectRatio remote with
    | .ok resultImage =>
      { s with gallery := { id := toString now
                          , url := resultImage
                          , prompt := s.prompt
                          , createdAt := now
                          , type := GeneratedImageType.generation } :: s.gallery
             , isGenerating := false }
    | .error _ => { s with isGenerating := false }

/-- The mode-switcher buttons of App.tsx (lines 293 and 299):
`setMode(target); setPrompt('')`. -/
def switchMode (s : AppState) (target : AppMode) : AppState :=
  { s with mode := target, prompt := "" }

/-- The preset buttons of App.tsx (lines 162-165):
`setSelectedPreset(preset.id); setPrompt('')`. -/
def selectPreset (s : AppState) (presetId : String) : AppState :=
  { s with selectedPreset := presetId, prompt := "" }

/-- Filename used by `downloadImage` of App.tsx (line 115). -/
def downloadFilename (id : String) : String :=
  "mockup-ai-" ++ id ++ ".png"

/-- A submission event: either the mockup handler with its remote image-edit
endpoint, or the generation handler with its remote text-to-image endpoint. -/
inductive Submission where
  | mockup (remote : GenRequest → Except String GenResponse)
  | generation (remote : ImagenRequest → Except String ImagenResponse)

/-- Run the handler a submission event selects. -/
def applySubmission (s : AppState) (sub : Submission) (now : Nat) : AppState :=
  match sub with
  | .mockup remote => handleMockupGenerate s remote now
  | .generation remote => handleImageGenerate s remote now

/-- The outcome of the generation call a submission performs: `none` when
the handler's guard refuses the submission, otherwise the `Except` result
of the underlying service call. -/
def submissionResult (s : AppState) (sub : Submission) : Option (Except String String) :=
  match sub with
  | .mockup remote =>
    match s.uploadedImage with
    | none => none
    | some uploaded =>
      some (generateMockup (stripDataUriPrefix uploaded) s.uploadedMimeType
        (resolveMockupPrompt s.prompt s.selectedPreset) remote)
  | .generation remote =>
    if jsTrim s.prompt = "" then none
    else some (generateImage s.prompt s.selectedAspectRatio remote)

/-! ## Concrete fixtures used by witnesses and counterexamples -/

/-- A response whose first candidate carries a text part first and an inline
image part second. -/
def respLateImage : GenResponse :=
  { candidates := some [
      { content := some { parts := some [
          { text := some "Here is your mockup" },
          { inlineData := some { data := "QUJD", mimeType := "image/png" } } ] } } ] }

/-- A response whose first candidate's first part is an inline image. -/
def respInlineFirst : GenResponse :=
  { candidates := some [
      { content := some { parts := some [
          { inlineData := some { data := "QkJC", mimeType := "image/png" } } ] } } ] }

/-- A remote image-edit endpoint that always fails. -/
def failRemoteGen : GenRequest → Except String GenResponse :=
  fun _ => Except.error "network error"

/-- A remote text-to-image endpoint returning one image. -/
def okImagenRemote : ImagenRequest → Except String ImagenResponse :=
  fun _ => Except.ok { generatedImages := some [{ image := { imageBytes := "SU1H" } }] }

/-- A state with an uploaded logo, everything else initial. -/
def mockupReadyState : AppState :=
  { initialAppState with uploadedImage := some "data:image/png;base64,AAAA" }

/-- A state with a whitespace-padded custom prompt, an uploaded logo and the
hoodie preset selected. -/
def paddedPromptState : AppState :=
  { initialAppState with
      uploadedImage := some "data:image/png;base64,AAAA"
    , prompt := "  Add a vintage filter to this image  "
    , selectedPreset := "hoodie" }

/-- A state with a non-empty free-text prompt for the generation mode. -/
def genReadyState : AppState :=
  { initialAppState with prompt := "A castle at dusk" }

/-! ## Claims about the generation client -/

/-- C1, counterexample: a response that does contain an inline image part
(the second part of its first candidate) on which `generateMockup`
nevertheless fails, so failure is not characterized by the absence of an
image part in the response. -/
theorem generateMockup_first_part_only_cex :
    respHasImagePart respLateImage = true ∧
    generateMockup "AAAA" "image/png" "Place it" (fun _ => Except.ok respLateImage) =
      Except.error "No image generated in response" :=
  ⟨rfl, rfl⟩

/-- C1, amended: `generateMockup` propagates remote errors unchanged;
when the remote call succeeds it returns the PNG data URI built from the
inline data of the first part of the first candidate exactly when that
part carries inline data, and fails otherwise — it never scans later
parts or candidates for an image, and returns no partial result. -/
theorem generateMockup_spec (b64 mime prompt : String)
    (remote : GenRequest → Except String GenResponse) :
    (∀ e, remote (generateMockupRequest b64 mime prompt) = Except.error e →
      generateMockup b64 mime prompt remote = Except.error e) ∧
    (∀ resp d, remote (generateMockupRequest b64 mime prompt) = Except.ok resp →
      firstPartInlineData resp = some d →
      generateMockup b64 mime prompt remote = Except.ok ("data:image/png;base64," ++ d.data)) ∧
    (∀ resp, remote (generateMockupRequest b64 mime prompt) = Except.ok resp →
      firstPartInlineData resp = none →
      generateMockup b64 mime prompt remote = Except.error "No image generated in response") := by
  refine ⟨?_, ?_, ?_⟩
  · intro e he
    simp [generateMockup, he]
  · intro resp d hr hd
    unfold firstPartInlineData at hd
    simp only [generateMockup, hr]
    cases hc : ((resp.candidates.bind List.head?).bind GenCandidate.content).bind GenContent.parts with
    | none => rw [hc] at hd; simp at hd
    | some parts =>
      rw [hc] at hd
      cases parts with
      | nil => simp at hd
      | cons p rest =>
        simp only [List.head?, Option.some_bind] at hd
        simp [hd]
  · intro resp hr hn
    unfold firstPartInlineData at hn
    simp only [generateMockup, hr]
    cases hc : ((resp.candidates.bind List.head?).bind GenCandidate.content).bind GenContent.parts with
    | none => simp
    | some parts =>
      rw [hc] at hn
      cases parts with
      | nil => simp
      | cons p rest =>
        simp only [List.head?, Option.some_bind] at hn
        simp [hn]

/-- C1, witness: on a concrete response whose first part is an inline
image, `generateMockup` returns that image as a PNG data URI. -/
theorem generateMockup_spec_witness :
    generateMockup "AAAA" "image/png" "Place it" (fun _ => Except.ok respInlineFirst) =
      Except.ok ("data:image/png;base64," ++ "QkJC") :=
  (generateMockup_spec "AAAA" "image/png" "Place it" (fun _ => Except.ok respInlineFirst)).2.1
    respInlineFirst { data := "QkJC", mimeType := "image/png" } rfl rfl

/-- C5: `generateImage` requests exactly one image, JPEG output, at the
given aspect ratio; a response with at least one image yields a data URI
with the `data:image/jpeg;base64,` prefix; a response with zero images
fails, and a remote error propagates unchanged. -/
theorem generateImage_spec (prompt : String) (ratio : AspectRatio)
    (remote : ImagenRequest → Except String ImagenResponse) :
    (generateImageRequest prompt ratio).config.numberOfImages = 1 ∧
    (generateImageRequest prompt ratio).config.outputMimeType = "image/jpeg" ∧
    (generateImageRequest prompt ratio).config.aspectRatio = ratio ∧
    (∀ resp img rest, remote (generateImageRequest prompt ratio) = Except.ok resp →
      resp.generatedImages = some (img :: rest) →
      generateImage prompt ratio remote = Except.ok ("data:image/jpeg;base64," ++ img.image.imageBytes)) ∧
    (∀ resp, remote (generateImageRequest prompt ratio) = Except.ok resp →
      (resp.generatedImages = none ∨ resp.generatedImages = some []) →
      generateImage prompt ratio remote = Except.error "No image generated") ∧
    (∀ e, remote (generateImageRequest prompt ratio) = Except.error e →
      generateImage prompt ratio remote = Except.error e) := by
  refine ⟨rfl, rfl, rfl, ?_, ?_, ?_⟩
  · intro resp img rest hr hi
    simp [generateImage, hr, hi]
  · intro resp hr hz
    rcases hz with hz | hz <;> simp [generateImage, hr, hz]
  · intro e he
    simp [generateImage, he]

/-- C5, witness: a concrete one-image response at 16:9 yields the JPEG
data URI of its image bytes. -/
theorem generateImage_spec_witness :
    generateImage "A castle at dusk" AspectRatio.WIDE okImagenRemote =
      Except.ok ("data:image/jpeg;base64," ++ "SU1H") :=
  (generateImage_spec "A castle at dusk" AspectRatio.WIDE okImagenRemote).2.2.2.1
    { generatedImages := some [{ image := { imageBytes := "SU1H" } }] }
    { image := { imageBytes := "SU1H" } } [] rfl rfl

/-! ## Claims about the session orchestrator -/

/-- C2, counterexample: a submission with a whitespace-padded free-text
prompt stores the trimmed text in the new gallery entry, not the free
text verbatim. -/
theorem mockup_prompt_not_verbatim_cex :
    ((handleMockupGenerate paddedPromptState (fun _ => Except.ok respInlineFirst) 7).gallery.map
        GeneratedImage.prompt) = ["Add a vintage filter to this image"] ∧
    paddedPromptState.prompt ≠ "Add a vintage filter to this image" :=
  ⟨rfl, by decide⟩

/-- C2, amended: on a successful mockup submission the prompt sent to the
image-edit call and stored in the new gallery entry is the resolved
prompt: the trimmed free text when the trimmed free text is non-empty
(never concatenated with the preset template), and the selected preset's
template when the trimmed free text is empty. -/
theorem mockup_prompt_resolution (s : AppState)
    (remote : GenRequest → Except String GenResponse) (now : Nat) (img url : String)
    (h : s.uploadedImage = some img)
    (hok : generateMockup (stripDataUriPrefix img) s.uploadedMimeType
      (resolveMockupPrompt s.prompt s.selectedPreset) remote = Except.ok url) :
    ∃ e, (handleMockupGenerate s remote now).gallery = e :: s.gallery ∧
      e.prompt = resolveMockupPrompt s.prompt s.selectedPreset ∧
      (jsTrim s.prompt ≠ "" → e.prompt = jsTrim s.prompt) ∧
      (∀ preset, jsTrim s.prompt = "" →
        MOCKUP_PRESETS.find? (fun p => p.id == s.selectedPreset) = some preset →
        e.prompt = preset.promptTemplate) := by
  refine ⟨{ id := toString now, url := url
          , prompt := resolveMockupPrompt s.prompt s.selectedPreset
          , createdAt := now, type := GeneratedImageType.mockup }, ?_, rfl, ?_, ?_⟩
  · simp [handleMockupGenerate, h, hok]
  · intro hne
    simp [resolveMockupPrompt, hne]
  · intro preset he hf
    simp [resolveMockupPrompt, he, hf]

/-- C2, witness: the padded-prompt state stores the trimmed prompt in the
prepended entry. -/
theorem mockup_prompt_resolution_witness :
    ∃ e, (handleMockupGenerate paddedPromptState (fun _ => Except.ok respInlineFirst) 7).gallery
        = e :: paddedPromptState.gallery ∧
      e.prompt = resolveMockupPrompt paddedPromptState.prompt paddedPromptState.selectedPreset ∧
      (jsTrim paddedPromptState.prompt ≠ "" → e.prompt = jsTrim paddedPromptState.prompt) ∧
      (∀ preset, jsTrim paddedPromptState.prompt = "" →
        MOCKUP_PRESETS.find? (fun p => p.id == paddedPromptState.selectedPreset) = some preset →
        e.prompt = preset.promptTemplate) :=
  mockup_prompt_resolution paddedPromptState (fun _ => Except.ok respInlineFirst) 7
    "data:image/png;base64,AAAA" ("data:image/png;base64," ++ "QkJC") rfl rfl

/-- C3: whenever a submission passes its guard and its generation call
runs, the resulting state has the busy flag cleared, for success and
failure alike; and when the call fails the gallery is unchanged. -/
theorem busy_cleared_and_gallery_on_failure (s : AppState) (sub : Submission) (now : Nat)
    (r : Except String String) (h : submissionResult s sub = some r) :
    (applySubmission s sub now).isGenerating = false ∧
    (∀ e, r = Except.error e → (applySubmission s sub now).gallery = s.gallery) := by
  cases sub with
  | mockup remote =>
    cases hu : s.uploadedImage with
    | none => simp [submissionResult, hu] at h
    | some uploaded =>
      simp only [submissionResult, hu, Option.some.injEq] at h
      cases hg : generateMockup (stripDataUriPrefix uploaded) s.uploadedMimeType
          (resolveMockupPrompt s.prompt s.selectedPreset) remote with
      | ok url =>
        refine ⟨?_, ?_⟩
        · simp [applySubmission, handleMockupGenerate, hu, hg]
        · intro e her
          rw [← h, hg] at her
          exact absurd her (by simp)
      | error msg =>
        refine ⟨?_, ?_⟩
        · simp [applySubmission, handleMockupGenerate, hu, hg]
        · intro e _
          simp [applySubmission, handleMockupGenerate, hu, hg]
  | generation remote =>
    by_cases hp : jsTrim s.prompt = ""
    · simp [submissionResult, hp] at h
    · simp only [submissionResult, hp, if_false, Option.some.injEq] at h
      cases hg : generateImage s.prompt s.selectedAspectRatio remote with
      | ok url =>
        refine ⟨?_, ?_⟩
        · simp [applySubmission, handleImageGenerate, hp, hg]
        · intro e her
          rw [← h, hg] at her
          exact absurd her (by simp)
      | error msg =>
        refine ⟨?_, ?_⟩
        · simp [applySubmission, handleImageGenerate, hp, hg]
        · intro e _
          simp [applySubmission, handleImageGenerate, hp, hg]

/-- C3, witness: a failing image-edit call on a concrete state leaves the
gallery unchanged and the busy flag false. -/
theorem busy_cleared_and_gallery_on_failure_witness :
    (applySubmission mockupReadyState (Submission.mockup failRemoteGen) 3).isGenerating = false ∧
    (applySubmission mockupReadyState (Submission.mockup failRemoteGen) 3).gallery
      = mockupReadyState.gallery := by
  have h := busy_cleared_and_gallery_on_failure mockupReadyState
    (Submission.mockup failRemoteGen) 3 (Except.error "network error") rfl
  exact ⟨h.1, h.2 "network error" rfl⟩

/-- C4: every successful submission prepends exactly one new entry at the
head of the gallery and keeps the previously existing entries, in order,
as the tail; since the state is universally quantified this holds after
any sequence of successful submissions, so the newest entry is always at
the head. -/
theorem gallery_prepend_on_success (s : AppState) (sub : Submission) (now : Nat)
    (url : String) (h : submissionResult s sub = some (Except.ok url)) :
    ∃ e, (applySubmission s sub now).gallery = e :: s.gallery ∧
      e.createdAt = now ∧ e.url = url := by
  cases sub with
  | mockup remote =>
    cases hu : s.uploadedImage with
    | none => simp [submissionResult, hu] at h
    | some uploaded =>
      simp only [submissionResult, hu, Option.some.injEq] at h
      refine ⟨{ id := toString now, url := url
              , prompt := resolveMockupPrompt s.prompt s.selectedPreset
              , createdAt := now, type := GeneratedImageType.mockup }, ?_, rfl, rfl⟩
      simp [applySubmission, handleMockupGenerate, hu, h]
  | generation remote =>
    by_cases hp : jsTrim s.prompt = ""
    · simp [submissionResult, hp] at h
    · simp only [submissionResult, hp, if_false, Option.some.injEq] at h
      refine ⟨{ id := toString now, url := url, prompt := s.prompt
              , createdAt := now, type := GeneratedImageType.generation }, ?_, rfl, rfl⟩
      simp [applySubmission, handleImageGenerate, hp, h]

/-- C4, witness: a concrete successful generation submission prepends its
entry to the (empty) gallery. -/
theorem gallery_prepend_on_success_witness :
    ∃ e, (applySubmission genReadyState (Submission.generation okImagenRemote) 5).gallery
        = e :: genReadyState.gallery ∧
      e.createdAt = 5 ∧ e.url = ("data:image/jpeg;base64," ++ "SU1H") :=
  gallery_prepend_on_success genReadyState (Submission.generation okImagenRemote) 5
    ("data:image/jpeg;base64," ++ "SU1H") rfl

/-- C6: every successful generation submission prepends an entry whose
kind is `generation` and whose stored prompt is the submitted free text,
exactly and untrimmed. -/
theorem generation_entry_kind_and_prompt (s : AppState)
    (remote : ImagenRequest → Except String ImagenResponse) (now : Nat) (url : String)
    (hne : jsTrim s.prompt ≠ "")
    (hok : generateImage s.prompt s.selectedAspectRatio remote = Except.ok url) :
    ∃ e, (handleImageGenerate s remote now).gallery = e :: s.gallery ∧
      e.type = GeneratedImageType.generation ∧ e.prompt = s.prompt := by
  refine ⟨{ id := toString now, url := url, prompt := s.prompt
          , createdAt := now, type := GeneratedImageType.generation }, ?_, rfl, rfl⟩
  simp [handleImageGenerate, hne, hok]

/-- C6, witness: a concrete successful generation submission stores the
free text exactly with kind `generation`. -/
theorem generation_entry_kind_and_prompt_witness :
    ∃ e, (handleImageGenerate genReadyState okImagenRemote 5).gallery
        = e :: genReadyState.gallery ∧
      e.type = GeneratedImageType.generation ∧ e.prompt = genReadyState.prompt :=
  generation_entry_kind_and_prompt genReadyState okImagenRemote 5
    ("data:image/jpeg;base64," ++ "SU1H") (by decide) rfl

/-- C7: switching the mode clears the free-text prompt, sets the target
mode, and leaves the uploaded image and the gallery unchanged. -/
theorem switchMode_clears_prompt_only (s : AppState) (target : AppMode) :
    (switchMode s target).prompt = "" ∧
    (switchMode s target).mode = target ∧
    (switchMode s target).uploadedImage = s.uploadedImage ∧
    (switchMode s target).gallery = s.gallery :=
  ⟨rfl, rfl, rfl, rfl⟩

/-- C8: for every gallery entry the download filename is
`mockup-ai-<id>.png`, ending in `.png` whatever the entry's kind or the
media type of its data URI. -/
theorem download_filename_always_png (item : GeneratedImage) :
    downloadFilename item.id = "mockup-ai-" ++ item.id ++ ".png" ∧
    ∃ stem, downloadFilename item.id = stem ++ ".png" :=
  ⟨rfl, "mockup-ai-" ++ item.id, by simp [downloadFilename, String.append_assoc]⟩

/-- C9: clicking a mockup preset sets the selected preset id and clears the
free-text prompt, leaving the uploaded image, gallery, mode and aspect
ratio unchanged. -/
theorem selectPreset_clears_prompt (s : AppState) (presetId : String) :
    (selectPreset s presetId).prompt = "" ∧
    (selectPreset s presetId).selectedPreset = presetId ∧
    (selectPreset s presetId).uploadedImage = s.uploadedImage ∧
    (selectPreset s presetId).gallery = s.gallery ∧
    (selectPreset s presetId).mode = s.mode ∧
    (selectPreset s presetId).selectedAspectRatio = s.selectedAspectRatio :=
  ⟨rfl, rfl, rfl, rfl, rfl, rfl⟩

/-- C10: when the trimmed free-text prompt is empty and the selected preset
id matches no catalog entry, the resolved mockup prompt is the fixed
fallback sentence, not a failure. -/
theorem unknown_preset_fallback (prompt presetId : String)
    (he : jsTrim prompt = "")
    (hf : MOCKUP_PRESETS.find? (fun p => p.id == presetId) = none) :
    resolveMockupPrompt prompt presetId = "Place this design on a product." := by
  simp [resolveMockupPrompt, he, hf]

/-- C10, witness: empty prompt and the unknown preset id `car` resolve to
the fallback sentence. -/
theorem unknown_preset_fallback_witness :
    resolveMockupPrompt "" "car" = "Place this design on a product." :=
  unknown_preset_fallback "" "car" rfl (by decide)
